import Mathlib

/-!
Verification of the real-estate market scoring engine (src/app.py).

The script computes, per market row: an amortized monthly mortgage payment,
cash-flow figures, a total-cash-required value used by a capital filter,
then min-max normalizes each weighted metric column, applies directionality
(identifiers containing "Price" or "Vacancy" are cost-like), accumulates a
weighted composite Master Score, and sorts descending.

Embedding choices: numeric values are rationals; a data frame is a list of
rows, each row a function from column name to value; Python scalar division
by zero (which raises ZeroDivisionError) is modelled by an Option result.
-/

set_option autoImplicit false

namespace MarketScoring

/-- A data-frame row: column name to numeric value. -/
def Row : Type := String → ℚ

/-- A data frame: the schema (column names) plus the rows. -/
structure DataFrame where
  cols : List String
  rows : List Row

/-! Financial model: src/app.py lines 27-54. -/

/-- Column name used for the market price, from line 27 of src/app.py. -/
def price_col : String := "Small Multi Median Sales Price 2025 YtD (2–4 Units)"

/-- Column name of the derived total-cash-required value, src/app.py line 53. -/
def tcr_col : String := "Total_Cash_Required"

/-- Monthly mortgage computation of src/app.py lines 29-37:
`loan_amount = price * (1 - down_payment_pct)`, `monthly_interest =
interest_rate / 12`, `num_payments = loan_term_years * 12`, then
`loan_amount * ((monthly_interest * (1+monthly_interest)**num_payments) /
((1+monthly_interest)**num_payments - 1))`.  The quotient of the two scalar
factors is evaluated by Python before broadcasting over the price column, so
a zero denominator raises ZeroDivisionError; `none` models that fault. -/
def monthly_mortgage (price down_payment_pct interest_rate : ℚ)
    (loan_term_years : ℕ) : Option ℚ :=
  let loan_amount := price * (1 - down_payment_pct)
  let monthly_interest := interest_rate / 12
  let num_payments := loan_term_years * 12
  let denom := (1 + monthly_interest) ^ num_payments - 1
  if denom = 0 then none
  else some (loan_amount *
    ((monthly_interest * (1 + monthly_interest) ^ num_payments) / denom))

/-- Total cash required, src/app.py line 53:
`(down_payment_pct + 0.04) * price + buffer`. -/
def total_cash_required (down_payment_pct buffer price : ℚ) : ℚ :=
  (down_payment_pct + 4 / 100) * price + buffer

/-- Row update modelling a pandas column assignment `df[c] = v` at one row. -/
def set_col (c : String) (v : ℚ) (r : Row) : Row :=
  fun c2 => if c2 = c then v else r c2

/-- Line 53 of src/app.py applied to one row: the assignment
`df["Total_Cash_Required"] = (down_payment_pct + 0.04) * df[price_col] +
buffer`. -/
def add_total_cash (down_payment_pct buffer : ℚ) (r : Row) : Row :=
  set_col tcr_col (total_cash_required down_payment_pct buffer (r price_col)) r

/-- Capital filter, src/app.py line 54:
`df = df[df["Total_Cash_Required"] <= max_investment]`. -/
def capital_filter (max_investment : ℚ) (rows : List Row) : List Row :=
  rows.filter fun r => decide (r tcr_col ≤ max_investment)

/-! Weight resolver: src/app.py lines 82-118. -/

/-- The fixed group-to-metrics catalog, src/app.py lines 82-87. -/
def groups : List (String × List String) :=
  [("STR Performance",
    ["Market Score", "STR_Yield", "Occupancy", "Booking Demand Growth",
     "STR_Positive_CF"]),
   ("LTR Safety Net",
    ["Gross Yield (SFR)", "LTR_Positive_CF", "Rent-to-Price Ratio"]),
   ("Entry & Value",
    ["Small Multi Median Sales Price 2025 YtD (2–4 Units)",
     "Small Multi Discount Markets", "Home Value Growth (5 Years)"]),
   ("Fundamentals",
    ["Population Growth (5 years)", "Rent Growth (YoY)", "Vacancy Rate"])]

/-- Theme-mode weight resolution, src/app.py lines 115-118:
`metrics = {metric: group_weights[group] / len(groups[group]) for group in
groups for metric in groups[group]}`, where `group_weights` gives the slider
value of each group name. -/
def theme_metrics (group_weights : String → ℚ) : List (String × ℚ) :=
  groups.flatMap fun g => g.2.map fun m => (m, group_weights g.1 / (g.2.length : ℚ))

/-! Normalization and scoring engine: src/app.py lines 131-142. -/

/-- Whether the list `hay` starts with the list `needle`. -/
def chStarts : List Char → List Char → Bool
  | _, [] => true
  | [], _ :: _ => false
  | h :: hs, n :: ns => h == n && chStarts hs ns

/-- Whether `needle` occurs as a contiguous sublist of the second argument;
this is the Python substring test `needle in s`. -/
def chContains (needle : List Char) : List Char → Bool
  | [] => chStarts [] needle
  | c :: cs => chStarts (c :: cs) needle || chContains needle cs

/-- The characters of the substring tested first on src/app.py line 136. -/
def price_needle : List Char := "Price".toList

/-- The characters of the substring tested second on src/app.py line 136. -/
def vacancy_needle : List Char := "Vacancy".toList

/-- Directionality test of src/app.py line 136:
`"Price" in col or "Vacancy" in col`. -/
def is_cost_like (col : String) : Bool :=
  chContains price_needle col.toList || chContains vacancy_needle col.toList

/-- Minimum of a list of values; pandas `Series.min()` (the empty case never
feeds a comparison because an empty frame has no rows to normalize). -/
def qmin : List ℚ → ℚ
  | [] => 0
  | x :: xs => xs.foldl min x

/-- Maximum of a list of values; pandas `Series.max()`. -/
def qmax : List ℚ → ℚ
  | [] => 0
  | x :: xs => xs.foldl max x

/-- The values of column `c` across the rows of `df`, i.e. `df[c]`. -/
def col_vals (df : DataFrame) (c : String) : List ℚ :=
  df.rows.map fun r => r c

/-- The column minimum `df[c].min()` over the filtered frame. -/
def col_min (df : DataFrame) (c : String) : ℚ := qmin (col_vals df c)

/-- The column maximum `df[c].max()` over the filtered frame. -/
def col_max (df : DataFrame) (c : String) : ℚ := qmax (col_vals df c)

/-- Min-max normalization of one value, src/app.py line 134:
`(df[col] - df[col].min()) / (df[col].max() - df[col].min()) if
df[col].max() != df[col].min() else 0`. -/
def norm_val (mn mx v : ℚ) : ℚ :=
  if mx ≠ mn then (v - mn) / (mx - mn) else 0

/-- Normalized value of column `c` at row `r`, the column `col + "_norm"`. -/
def col_norm (df : DataFrame) (c : String) (r : Row) : ℚ :=
  norm_val (col_min df c) (col_max df c) (r c)

/-- Directional normalized value, src/app.py lines 136-139: cost-like
columns contribute `1 - norm`, all others contribute `norm`. -/
def dir_norm (c : String) (nv : ℚ) : ℚ :=
  if is_cost_like c then 1 - nv else nv

/-- Composite Master Score of one row, src/app.py lines 131-141: starting
from 0, for each weighted metric whose column is present,
`score += weight * directional_normalized_value`. -/
def master_score (df : DataFrame) (weights : List (String × ℚ)) (r : Row) : ℚ :=
  weights.foldl
    (fun s p =>
      if df.cols.contains p.1 then s + p.2 * dir_norm p.1 (col_norm df p.1 r)
      else s) 0

/-! Ranking: src/app.py line 142. -/

/-- Insert a row into a list sorted by descending key, keeping it after
every row of greater or equal key. -/
def insert_desc (key : Row → ℚ) (x : Row) : List Row → List Row
  | [] => [x]
  | y :: ys => if key y < key x then x :: y :: ys else y :: insert_desc key x ys

/-- Sort rows by descending key (insertion sort). -/
def sort_desc (key : Row → ℚ) : List Row → List Row
  | [] => []
  | x :: xs => insert_desc key x (sort_desc key xs)

/-- The ranking stage, src/app.py lines 141-142: assign the Master Score
column, then sort by it with `ascending=False`. -/
def ranked_rows (df : DataFrame) (weights : List (String × ℚ)) : List Row :=
  sort_desc (master_score df weights) df.rows

/-! Concrete sample data used by the witnesses. -/

/-- The metric name "Vacancy Rate" from the Fundamentals group. -/
def vac_col : String := "Vacancy Rate"

/-- The metric name "Rent-to-Price Ratio" from the LTR Safety Net group. -/
def rtp_col : String := "Rent-to-Price Ratio"

/-- A sample market row. -/
def row_a : Row := fun c =>
  if c = tcr_col then 50000 else if c = vac_col then 5 else 1

/-- A second sample market row. -/
def row_b : Row := fun c =>
  if c = tcr_col then 80000 else if c = vac_col then 9 else 3

/-- A sample two-row frame carrying the Vacancy Rate and Market Score
columns. -/
def sample_df : DataFrame := ⟨[vac_col, "Market Score"], [row_a, row_b]⟩

/-! Helper lemmas on fold-based minima and maxima. -/

theorem foldl_min_le_init (xs : List ℚ) (a : ℚ) : xs.foldl min a ≤ a := by
  induction xs generalizing a with
  | nil => exact le_refl a
  | cons y ys ih => exact le_trans (ih (min a y)) (min_le_left a y)

theorem foldl_min_le_mem (xs : List ℚ) (a v : ℚ) (hv : v ∈ xs) :
    xs.foldl min a ≤ v := by
  induction xs generalizing a with
  | nil => cases hv
  | cons y ys ih =>
    rcases List.mem_cons.mp hv with h | h
    · subst h
      exact le_trans (foldl_min_le_init ys (min a v)) (min_le_right a v)
    · exact ih (min a y) h

theorem init_le_foldl_max (xs : List ℚ) (a : ℚ) : a ≤ xs.foldl max a := by
  induction xs generalizing a with
  | nil => exact le_refl a
  | cons y ys ih => exact le_trans (le_max_left a y) (ih (max a y))

theorem mem_le_foldl_max (xs : List ℚ) (a v : ℚ) (hv : v ∈ xs) :
    v ≤ xs.foldl max a := by
  induction xs generalizing a with
  | nil => cases hv
  | cons y ys ih =>
    rcases List.mem_cons.mp hv with h | h
    · subst h
      exact le_trans (le_max_right a v) (init_le_foldl_max ys (max a v))
    · exact ih (max a y) h

theorem qmin_le_mem (l : List ℚ) (v : ℚ) (hv : v ∈ l) : qmin l ≤ v := by
  cases l with
  | nil => cases hv
  | cons x xs =>
    rcases List.mem_cons.mp hv with h | h
    · subst h; exact foldl_min_le_init xs v
    · exact foldl_min_le_mem xs x v h

theorem mem_le_qmax (l : List ℚ) (v : ℚ) (hv : v ∈ l) : v ≤ qmax l := by
  cases l with
  | nil => cases hv
  | cons x xs =>
    rcases List.mem_cons.mp hv with h | h
    · subst h; exact init_le_foldl_max xs v
    · exact mem_le_foldl_max xs x v h

theorem col_min_le (df : DataFrame) (c : String) (r : Row) (hr : r ∈ df.rows) :
    col_min df c ≤ r c :=
  qmin_le_mem _ _ (List.mem_map.mpr ⟨r, hr, rfl⟩)

theorem le_col_max (df : DataFrame) (c : String) (r : Row) (hr : r ∈ df.rows) :
    r c ≤ col_max df c :=
  mem_le_qmax _ _ (List.mem_map.mpr ⟨r, hr, rfl⟩)

/-! Helper lemmas on the score accumulation and on directionality. -/

theorem score_foldl_eq (cols : List String) (f : (String × ℚ) → ℚ)
    (l : List (String × ℚ)) (a : ℚ) :
    l.foldl (fun s p => if cols.contains p.1 then s + f p else s) a
      = a + ((l.filter fun p => cols.contains p.1).map f).sum := by
  induction l generalizing a with
  | nil => simp
  | cons p ps ih =>
    rw [List.foldl_cons, ih, List.filter_cons]
    by_cases h : p.1 ∈ cols
    · simp [h, add_assoc]
    · simp [h]

theorem master_score_eq_sum (df : DataFrame) (weights : List (String × ℚ))
    (r : Row) :
    master_score df weights r =
      ((weights.filter fun p => df.cols.contains p.1).map
        (fun p => p.2 * dir_norm p.1 (col_norm df p.1 r))).sum := by
  have h := score_foldl_eq df.cols
    (fun p => p.2 * dir_norm p.1 (col_norm df p.1 r)) weights 0
  simpa [master_score] using h

theorem cost_like_of_price (c : String)
    (hP : chContains price_needle c.toList = true) :
    is_cost_like c = true := by
  unfold is_cost_like
  rw [hP]
  rfl

/-! The claims. -/

/-- Claim C1 (code bug): the source has no zero-rate special case.  At an
annual rate of 0, a 120000 loan (price 120000, zero down payment) over 10
years makes the scalar quotient of src/app.py lines 35-36 evaluate 0/0, a
ZeroDivisionError, modelled here as `none`; the specified behaviour would
instead be `loan_amount / n = 120000 / 120 = 1000`. -/
theorem claim_C1_zero_rate_faults :
    monthly_mortgage 120000 0 0 10 = none ∧ (120000 : ℚ) / (10 * 12) = 1000 := by
  constructor
  · norm_num [monthly_mortgage]
  · norm_num

/-- Claim C2: for a positive annual rate (and a positive term, as the UI
guarantees), the code computes the standard amortized payment
`loan_amount * (monthly_rate * (1+monthly_rate)^n) / ((1+monthly_rate)^n - 1)`
with `loan_amount = price * (1 - down_payment_fraction)`,
`monthly_rate = rate/12` and `n = term*12`; and a 100000 loan at 6% annual
over 30 years pays within 0.01 of 599.55 per month. -/
theorem claim_C2_amortization (price dp rate : ℚ) (term : ℕ)
    (hr : 0 < rate) (ht : 0 < term) :
    monthly_mortgage price dp rate term =
      some (price * (1 - dp) *
        ((rate / 12 * (1 + rate / 12) ^ (term * 12)) /
          ((1 + rate / 12) ^ (term * 12) - 1))) ∧
    ∃ p : ℚ, monthly_mortgage 100000 0 (6 / 100) 30 = some p ∧
      |p - 59955 / 100| ≤ 1 / 100 := by
  have key : ∀ price2 dp2 rate2 : ℚ, ∀ term2 : ℕ, 0 < rate2 → 0 < term2 →
      monthly_mortgage price2 dp2 rate2 term2 =
        some (price2 * (1 - dp2) *
          ((rate2 / 12 * (1 + rate2 / 12) ^ (term2 * 12)) /
            ((1 + rate2 / 12) ^ (term2 * 12) - 1))) := by
    intro price2 dp2 rate2 term2 hr2 ht2
    have h1 : (1 : ℚ) < 1 + rate2 / 12 := by
      linarith [div_pos hr2 (by norm_num : (0 : ℚ) < 12)]
    have h2 : (1 : ℚ) < (1 + rate2 / 12) ^ (term2 * 12) :=
      one_lt_pow₀ h1 (by positivity)
    have h3 : (1 + rate2 / 12) ^ (term2 * 12) - 1 ≠ 0 := by linarith
    simp only [monthly_mortgage, if_neg h3]
  refine ⟨key price dp rate term hr ht, ?_⟩
  refine ⟨_, key 100000 0 (6 / 100) 30 (by norm_num) (by norm_num), ?_⟩
  rw [abs_le]
  constructor <;> norm_num

/-- Witness for C2 at price 100000, no down payment, 6% rate, 30 years. -/
theorem claim_C2_amortization_witness :
    (0 : ℚ) < 6 / 100 ∧ 0 < 30 ∧
    (monthly_mortgage 100000 0 (6 / 100) 30 =
      some (100000 * (1 - 0) *
        ((6 / 100 / 12 * (1 + 6 / 100 / 12) ^ (30 * 12)) /
          ((1 + 6 / 100 / 12) ^ (30 * 12) - 1))) ∧
    ∃ p : ℚ, monthly_mortgage 100000 0 (6 / 100) 30 = some p ∧
      |p - 59955 / 100| ≤ 1 / 100) :=
  ⟨by norm_num, by norm_num,
    claim_C2_amortization 100000 0 (6 / 100) 30 (by norm_num) (by norm_num)⟩

/-- Claim C3: over a non-empty filtered set (witnessed by a member row), a
degenerate column normalizes to 0 at every row with no division fault;
otherwise every normalized value lies in [0,1], a row attaining the column
maximum normalizes to 1 and one attaining the minimum to 0. -/
theorem claim_C3_normalization (df : DataFrame) (c : String) (r : Row)
    (hr : r ∈ df.rows) :
    (col_max df c = col_min df c → col_norm df c r = 0) ∧
    (col_max df c ≠ col_min df c →
      0 ≤ col_norm df c r ∧ col_norm df c r ≤ 1 ∧
      norm_val (col_min df c) (col_max df c) (col_max df c) = 1 ∧
      norm_val (col_min df c) (col_max df c) (col_min df c) = 0) := by
  have hmn : col_min df c ≤ r c := col_min_le df c r hr
  have hmx : r c ≤ col_max df c := le_col_max df c r hr
  constructor
  · intro heq
    simp [col_norm, norm_val, heq]
  · intro hne
    have hlt : col_min df c < col_max df c :=
      lt_of_le_of_ne (le_trans hmn hmx) (Ne.symm hne)
    have hd : 0 < col_max df c - col_min df c := by linarith
    refine ⟨?_, ?_, ?_, ?_⟩
    · simp only [col_norm, norm_val, if_pos hne]
      exact div_nonneg (by linarith) (le_of_lt hd)
    · simp only [col_norm, norm_val, if_pos hne]
      rw [div_le_one hd]
      linarith
    · simp only [norm_val, if_pos hne]
      exact div_self (ne_of_gt hd)
    · simp only [norm_val, if_pos hne]
      simp

/-- Witness for C3 on the sample frame at the Vacancy Rate column. -/
theorem claim_C3_normalization_witness :
    row_a ∈ sample_df.rows ∧
    ((col_max sample_df vac_col = col_min sample_df vac_col →
      col_norm sample_df vac_col row_a = 0) ∧
    (col_max sample_df vac_col ≠ col_min sample_df vac_col →
      0 ≤ col_norm sample_df vac_col row_a ∧
      col_norm sample_df vac_col row_a ≤ 1 ∧
      norm_val (col_min sample_df vac_col) (col_max sample_df vac_col)
        (col_max sample_df vac_col) = 1 ∧
      norm_val (col_min sample_df vac_col) (col_max sample_df vac_col)
        (col_min sample_df vac_col) = 0)) :=
  ⟨by simp [sample_df],
    claim_C3_normalization sample_df vac_col row_a (by simp [sample_df])⟩

/-- Claim C4: a metric whose identifier contains "Price" or "Vacancy"
contributes `weight * (1 - normalized)` and every other metric contributes
`weight * normalized`; a metric whose identifier contains "Price" is
cost-like, and over a non-degenerate column the row holding the minimum raw
value gets directional value 1, the largest contribution at any
non-negative weight. -/
theorem claim_C4_directionality (c : String) (w mn mx v : ℚ)
    (hP : chContains price_needle c.toList = true)
    (hmn : mn < mx) (hv : mn ≤ v) (hw : 0 ≤ w) :
    (∀ c2 w2 nv, is_cost_like c2 = true → w2 * dir_norm c2 nv = w2 * (1 - nv)) ∧
    (∀ c2 w2 nv, is_cost_like c2 = false → w2 * dir_norm c2 nv = w2 * nv) ∧
    is_cost_like c = true ∧
    dir_norm c (norm_val mn mx mn) = 1 ∧
    w * dir_norm c (norm_val mn mx v) ≤ w * dir_norm c (norm_val mn mx mn) := by
  have hcost : is_cost_like c = true := cost_like_of_price c hP
  have hne : mx ≠ mn := ne_of_gt hmn
  have hd : 0 < mx - mn := by linarith
  have hone : dir_norm c (norm_val mn mx mn) = 1 := by
    simp [dir_norm, hcost, norm_val, hne]
  refine ⟨?_, ?_, hcost, hone, ?_⟩
  · intro c2 w2 nv h; simp [dir_norm, h]
  · intro c2 w2 nv h; simp [dir_norm, h]
  · rw [hone]
    have h1 : 0 ≤ (v - mn) / (mx - mn) := div_nonneg (by linarith) hd.le
    have h2 : dir_norm c (norm_val mn mx v) ≤ 1 := by
      simp only [dir_norm, hcost, if_true, norm_val, if_pos hne]
      linarith
    exact mul_le_mul_of_nonneg_left h2 hw

/-- Witness for C4 at the price column with weight 1 over the range [0,1]. -/
theorem claim_C4_directionality_witness :
    chContains price_needle price_col.toList = true ∧
    (0 : ℚ) < 1 ∧ (0 : ℚ) ≤ 1 / 2 ∧ (0 : ℚ) ≤ 1 ∧
    ((∀ c2 w2 nv, is_cost_like c2 = true →
        w2 * dir_norm c2 nv = w2 * (1 - nv)) ∧
    (∀ c2 w2 nv, is_cost_like c2 = false → w2 * dir_norm c2 nv = w2 * nv) ∧
    is_cost_like price_col = true ∧
    dir_norm price_col (norm_val 0 1 0) = 1 ∧
    1 * dir_norm price_col (norm_val 0 1 (1 / 2)) ≤
      1 * dir_norm price_col (norm_val 0 1 0)) :=
  ⟨by decide, by norm_num, by norm_num, by norm_num,
    claim_C4_directionality price_col 1 0 1 (1 / 2) (by decide)
      (by norm_num) (by norm_num) (by norm_num)⟩

/-- Claim C5: the Master Score of a row is the sum of
`weight * directional_normalized_value` over exactly those weighted metrics
whose column is present in the frame, and prepending a weight entry whose
column is absent leaves every score unchanged (skipped silently). -/
theorem claim_C5_score_sum (df : DataFrame) (weights : List (String × ℚ))
    (r : Row) (k : String) (wt : ℚ) (hk : df.cols.contains k = false) :
    master_score df weights r =
      ((weights.filter fun p => df.cols.contains p.1).map
        (fun p => p.2 * dir_norm p.1 (col_norm df p.1 r))).sum ∧
    master_score df ((k, wt) :: weights) r = master_score df weights r := by
  have hk2 : k ∉ df.cols := by simpa using hk
  exact ⟨master_score_eq_sum df weights r, by simp [master_score, hk2]⟩

/-- Witness for C5 on the sample frame with an absent weight key. -/
theorem claim_C5_score_sum_witness :
    sample_df.cols.contains "Missing Metric" = false ∧
    (master_score sample_df [(vac_col, 1 / 2)] row_a =
      (([(vac_col, 1 / 2)].filter fun p => sample_df.cols.contains p.1).map
        (fun p => p.2 * dir_norm p.1 (col_norm sample_df p.1 row_a))).sum ∧
    master_score sample_df (("Missing Metric", 3) :: [(vac_col, 1 / 2)]) row_a =
      master_score sample_df [(vac_col, 1 / 2)] row_a) :=
  ⟨by decide,
    claim_C5_score_sum sample_df [(vac_col, 1 / 2)] row_a
      "Missing Metric" 3 (by decide)⟩

/-- Claim C6: in theme mode each member metric of a group resolves to the
group weight divided by the member count, the per-group sum of resolved
weights is exactly the group slider weight, and the four catalog groups
cover 14 metrics with every metric in exactly one group. -/
theorem claim_C6_theme_weights (gw : String → ℚ) (g : String × List String)
    (hg : g ∈ groups) (m : String) (hm : m ∈ g.2) :
    (theme_metrics gw).lookup m = some (gw g.1 / (g.2.length : ℚ)) ∧
    (g.2.map fun m2 => (((theme_metrics gw).lookup m2).getD 0)).sum = gw g.1 ∧
    (groups.flatMap Prod.snd).length = 14 ∧
    (groups.flatMap Prod.snd).Nodup := by
  fin_cases hg <;> fin_cases hm <;>
    refine ⟨rfl, ?_, by decide, by decide⟩ <;>
    · show _ = _
      simp [theme_metrics, groups, List.lookup]
      ring

/-- Witness for C6 at the LTR Safety Net group, uniform group weights 1/4. -/
theorem claim_C6_theme_weights_witness :
    ("LTR Safety Net",
      ["Gross Yield (SFR)", "LTR_Positive_CF", "Rent-to-Price Ratio"]) ∈
        groups ∧
    rtp_col ∈ ["Gross Yield (SFR)", "LTR_Positive_CF", "Rent-to-Price Ratio"] ∧
    ((theme_metrics fun _ => (1 : ℚ) / 4).lookup rtp_col =
      some ((1 : ℚ) / 4 /
        ((["Gross Yield (SFR)", "LTR_Positive_CF",
           "Rent-to-Price Ratio"].length : ℚ))) ∧
    (["Gross Yield (SFR)", "LTR_Positive_CF", "Rent-to-Price Ratio"].map
        fun m2 =>
          (((theme_metrics fun _ => (1 : ℚ) / 4).lookup m2).getD 0)).sum =
      (1 : ℚ) / 4 ∧
    (groups.flatMap Prod.snd).length = 14 ∧
    (groups.flatMap Prod.snd).Nodup) :=
  ⟨by decide, by decide,
    claim_C6_theme_weights (fun _ => (1 : ℚ) / 4)
      ("LTR Safety Net",
        ["Gross Yield (SFR)", "LTR_Positive_CF", "Rent-to-Price Ratio"])
      (by decide) rtp_col (by decide)⟩

/-- Claim C7: the derived Total_Cash_Required column equals
`(down_payment_fraction + 0.04) * price + buffer`, the derivation changes no
other column, and the capital filter keeps exactly the rows whose required
cash is at most the ceiling: a row of the frame is dropped precisely when
its required cash strictly exceeds the ceiling, and the filter output is a
sublist of its input (no other change to the records). -/
theorem claim_C7_capital_filter (dp buffer maxInv : ℚ) (rows : List Row)
    (r s : Row) (c : String) (hc : c ≠ tcr_col) (hs : s ∈ rows) :
    add_total_cash dp buffer r tcr_col =
      (dp + 4 / 100) * r price_col + buffer ∧
    add_total_cash dp buffer r c = r c ∧
    (s ∈ capital_filter maxInv rows ↔ s tcr_col ≤ maxInv) ∧
    (s ∉ capital_filter maxInv rows ↔ maxInv < s tcr_col) ∧
    (capital_filter maxInv rows).Sublist rows := by
  refine ⟨?_, ?_, ?_, ?_, List.filter_sublist _⟩
  · simp [add_total_cash, set_col, total_cash_required]
  · simp [add_total_cash, set_col, hc]
  · simp [capital_filter, List.mem_filter, hs]
  · simp [capital_filter, List.mem_filter, hs, not_le]

/-- Witness for C7 on a one-row frame, 20% down, 30000 buffer, 100000 cap. -/
theorem claim_C7_capital_filter_witness :
    "Market Score" ≠ tcr_col ∧ row_a ∈ [row_a] ∧
    (add_total_cash (1 / 5) 30000 row_a tcr_col =
      (1 / 5 + 4 / 100) * row_a price_col + 30000 ∧
    add_total_cash (1 / 5) 30000 row_a "Market Score" = row_a "Market Score" ∧
    (row_a ∈ capital_filter 100000 [row_a] ↔ row_a tcr_col ≤ 100000) ∧
    (row_a ∉ capital_filter 100000 [row_a] ↔ 100000 < row_a tcr_col) ∧
    (capital_filter 100000 [row_a]).Sublist [row_a]) :=
  ⟨by decide, by simp,
    claim_C7_capital_filter (1 / 5) 30000 100000 [row_a] row_a row_a
      "Market Score" (by decide) (by simp)⟩

/-- Claim C9: when every row requires strictly more cash than the ceiling,
the capital filter yields the empty set and the downstream stages
still produce a well-formed empty ranked table: the ranked output is the
empty list and every column of the filtered frame is empty. -/
theorem claim_C9_empty_pipeline (cols : List String) (rows : List Row)
    (weights : List (String × ℚ)) (maxInv : ℚ)
    (h : ∀ r ∈ rows, maxInv < r tcr_col) :
    capital_filter maxInv rows = [] ∧
    ranked_rows ⟨cols, capital_filter maxInv rows⟩ weights = [] ∧
    ∀ c, col_vals ⟨cols, capital_filter maxInv rows⟩ c = [] := by
  have hf : capital_filter maxInv rows = [] := by
    apply List.filter_eq_nil_iff.mpr
    intro r hr
    simp [not_le.mpr (h r hr)]
  refine ⟨hf, ?_, ?_⟩
  · rw [ranked_rows, hf]; rfl
  · intro c; rw [col_vals, hf]; rfl

/-- Witness for C9: a 1-unit ceiling excludes the 50000-cash sample row. -/
theorem claim_C9_empty_pipeline_witness :
    (∀ r ∈ [row_a], (1 : ℚ) < r tcr_col) ∧
    (capital_filter 1 [row_a] = [] ∧
    ranked_rows ⟨[vac_col], capital_filter 1 [row_a]⟩ [(vac_col, 1 / 2)] = [] ∧
    ∀ c, col_vals ⟨[vac_col], capital_filter 1 [row_a]⟩ c = []) :=
  ⟨by intro r hr; rw [List.mem_singleton] at hr; subst hr; norm_num [row_a],
    claim_C9_empty_pipeline [vac_col] [row_a] [(vac_col, 1 / 2)] 1
      (by intro r hr; rw [List.mem_singleton] at hr; subst hr;
          norm_num [row_a])⟩

/-- Claim C10: the metric "Rent-to-Price Ratio" belongs to the LTR Safety
Net group yet is classified cost-like because its identifier contains
"Price"; hence at any weight its contribution is `weight * (1 - normalized)`
and, at a positive weight over a non-degenerate column, a row with the
smaller raw ratio receives the strictly larger contribution. -/
theorem claim_C10_rent_to_price (w mn mx v1 v2 : ℚ) (hw : 0 < w)
    (hmn : mn < mx) (h1 : mn ≤ v1) (h12 : v1 < v2) (h2 : v2 ≤ mx) :
    ("LTR Safety Net",
      ["Gross Yield (SFR)", "LTR_Positive_CF", "Rent-to-Price Ratio"]) ∈
        groups ∧
    rtp_col ∈ ["Gross Yield (SFR)", "LTR_Positive_CF", "Rent-to-Price Ratio"] ∧
    is_cost_like rtp_col = true ∧
    (∀ nv, w * dir_norm rtp_col nv = w * (1 - nv)) ∧
    w * dir_norm rtp_col (norm_val mn mx v2)
      < w * dir_norm rtp_col (norm_val mn mx v1) := by
  have hcost : is_cost_like rtp_col = true := by decide
  have hne : mx ≠ mn := ne_of_gt hmn
  have hd : 0 < mx - mn := by linarith
  refine ⟨by decide, by decide, hcost, ?_, ?_⟩
  · intro nv; simp [dir_norm, hcost]
  · have hlt : (v1 - mn) / (mx - mn) < (v2 - mn) / (mx - mn) :=
      (div_lt_div_iff_of_pos_right hd).mpr (by linarith)
    simp only [dir_norm, hcost, if_true, norm_val, if_pos hne]
    have hstep : 1 - (v2 - mn) / (mx - mn) < 1 - (v1 - mn) / (mx - mn) := by
      linarith
    exact mul_lt_mul_of_pos_left hstep hw

/-- Witness for C10 at weight 1 over the range [0,1] with raw values 0, 1. -/
theorem claim_C10_rent_to_price_witness :
    (0 : ℚ) < 1 ∧ (0 : ℚ) < 1 ∧ (0 : ℚ) ≤ 0 ∧ (0 : ℚ) < 1 ∧ (1 : ℚ) ≤ 1 ∧
    (("LTR Safety Net",
      ["Gross Yield (SFR)", "LTR_Positive_CF", "Rent-to-Price Ratio"]) ∈
        groups ∧
    rtp_col ∈ ["Gross Yield (SFR)", "LTR_Positive_CF", "Rent-to-Price Ratio"] ∧
    is_cost_like rtp_col = true ∧
    (∀ nv, 1 * dir_norm rtp_col nv = 1 * (1 - nv)) ∧
    1 * dir_norm rtp_col (norm_val 0 1 1)
      < 1 * dir_norm rtp_col (norm_val 0 1 0)) :=
  ⟨by norm_num, by norm_num, by norm_num, by norm_num, by norm_num,
    claim_C10_rent_to_price 1 0 1 0 1 (by norm_num) (by norm_num)
      (by norm_num) (by norm_num) (by norm_num)⟩

end MarketScoring
